import Mathlib

/-!
# Verification of the homework-status polling bot (`src/homework.py`)

A shallow embedding of the poll-parse-dedup-notify loop of `homework.py`.
Each Python function is translated into an executable Lean definition; the
external effects (HTTP fetch outcome, local clock, timezone of
`datetime.fromtimestamp`, and the Telegram delivery outcome) are supplied as
explicit inputs to every iteration.  Exceptions become `Except` values; the
infinite `while True` loop becomes an explicit step function on the mutable state of the loop plus a run function over a list of per-iteration inputs.
-/

namespace HomeworkBot

/-- A dynamic (JSON-like) Python value, as decoded from a response body or as
held in a response dict.  `pyObject` stands for a Python object that is not
JSON data — in particular the raw `requests.Response` object that
`get_api_answer` returns when the body fails to parse as JSON. -/
inductive JVal where
  | null : JVal
  | bool (b : Bool) : JVal
  | int (n : Int) : JVal
  | str (s : String) : JVal
  | list (xs : List JVal) : JVal
  | dict (fields : List (String × JVal)) : JVal
  | pyObject (tag : String) : JVal

/-- The exception classes the module can raise: `exceptions.WrongHttpStatus`,
`TypeError`, `KeyError`, `exceptions.UnknownHomeworkStatus`. -/
inductive BotError where
  | wrongHttpStatus (msg : String) : BotError
  | typeError (msg : String) : BotError
  | keyError (msg : String) : BotError
  | unknownHomeworkStatus (msg : String) : BotError
deriving DecidableEq, Repr

/-- Python `str(error)`, as interpolated into the error text of `main`.  `str` of a `KeyError` renders the message in quotes (Python shows
the `repr` of the key); the other classes render the message verbatim. -/
def BotError.render : BotError → String
  | .wrongHttpStatus m => m
  | .typeError m => m
  | .keyError m => "\x27" ++ m ++ "\x27"
  | .unknownHomeworkStatus m => m

/-- `RETRY_PERIOD = 600` (seconds slept in the final step of the loop body). -/
def RETRY_PERIOD : Nat := 600

/-- `ENDPOINT` constant from the module. -/
def ENDPOINT : String := "https://practicum.yandex.ru/api/user_api/homework_statuses/"

/-- `HOMEWORK_VERDICTS`: the code→text table.  Its key set is
`{approved, reviewing, rejected}`. -/
def HOMEWORK_VERDICTS : List (String × String) :=
  [("approved", "Работа проверена: ревьюеру всё понравилось. Ура!"),
   ("reviewing", "Работа взята на проверку ревьюером."),
   ("rejected", "Работа проверена: у ревьюера есть замечания.")]

/-- The outcome of the `requests.get(ENDPOINT, ...)` call in `get_api_answer`:
either the request raised a `RequestException`, or an HTTP response arrived
with a status code and a body.  `body = some j` means the body parses as JSON
value `j`; `body = none` means `response.json()` raises `JSONDecodeError`. -/
inductive HttpResult where
  | requestException (err : String) : HttpResult
  | response (status_code : Nat) (body : Option JVal) : HttpResult

/-- `get_api_answer(timestamp)`.  A transport failure or a non-200 status
raises `WrongHttpStatus`.  NOTE (faithful to the source): when the body is not
valid JSON the `except json.JSONDecodeError` branch only logs the error and
falls through, so the function returns the *unparsed* `requests.Response`
object instead of raising. -/
def get_api_answer (http : HttpResult) (_timestamp : Int) : Except BotError JVal :=
  match http with
  | .requestException err =>
      .error (.wrongHttpStatus ("Ошибка при запросе к API: " ++ err))
  | .response status_code body =>
      if status_code ≠ 200 then
        .error (.wrongHttpStatus
          (ENDPOINT ++ " - недоступен. Код ответа API: " ++ toString status_code))
      else
        match body with
        | some j => .ok j
        | none => .ok (.pyObject "requests.Response")

/-- `check_response(response)`: must be a dict, must contain both
`homeworks` and `current_date`, and `homeworks` must be a list (an empty
list is fine). -/
def check_response (response : JVal) : Except BotError (List JVal) :=
  match response with
  | .dict fields =>
      if ((fields.lookup "homeworks").isNone || (fields.lookup "current_date").isNone) then
        .error (.keyError "Пустой ответ от API")
      else
        match fields.lookup "homeworks" with
        | some (.list homeworks) => .ok homeworks
        | _ => .error (.typeError "Homeworks не является списком")
  | _ => .error (.typeError "Ошибка в типе ответа API")

/-- Python `str()` of a `JVal`, used when `homework_name` is interpolated into
the verdict f-string.  Containers and foreign objects get a placeholder (their
Python `repr` is irrelevant to every claim: all exercised names are strings). -/
def pyStr : JVal → String
  | .str s => s
  | .int n => toString n
  | .bool b => if b then "True" else "False"
  | .null => "None"
  | .list _ => "<list>"
  | .dict _ => "<dict>"
  | .pyObject t => "<" ++ t ++ ">"

/-- `parse_status(homework)`: requires `homework_name` and `status` keys; the
status must be a key of `HOMEWORK_VERDICTS`, otherwise
`UnknownHomeworkStatus` is raised.  (A non-string status value is not a dict
key, so it also fails the membership test; non-dict homework values make the
`in` test fail with a `TypeError` in Python — no claim exercises either of
the container corner cases of the Python membership test.) -/
def parse_status (homework : JVal) : Except BotError String :=
  match homework with
  | .dict fields =>
      match fields.lookup "homework_name" with
      | none => .error (.keyError "В ответе API отсутствует ключ \"homework_name\"!")
      | some homework_name =>
          match fields.lookup "status" with
          | none => .error (.keyError "В ответе API отсутствует ключ \"status\"!")
          | some homework_status =>
              match homework_status with
              | .str code =>
                  match HOMEWORK_VERDICTS.lookup code with
                  | some verdict =>
                      .ok ("Изменился статус проверки работы \"" ++ pyStr homework_name
                            ++ "\". " ++ verdict)
                  | none =>
                      .error (.unknownHomeworkStatus
                        "Неизвестный статус домашней работы в ответе API")
              | _ => .error (.unknownHomeworkStatus
                        "Неизвестный статус домашней работы в ответе API")
  | _ => .error (.typeError "argument is not iterable")

/-- Zero-padded two-digit field of `strftime`. -/
def pad2 (n : Int) : String :=
  if n < 10 then "0" ++ toString n else toString n

/-- Civil date from a day count since the Unix epoch (the standard
days-to-civil algorithm used by datetime implementations). -/
def civil_from_days (z0 : Int) : Int × Int × Int :=
  let z := z0 + 719468
  let era := z.fdiv 146097
  let doe := z - era * 146097
  let yoe := (doe - doe.fdiv 1460 + doe.fdiv 36524 - doe.fdiv 146096).fdiv 365
  let y := yoe + era * 400
  let doy := doe - (365 * yoe + yoe.fdiv 4 - yoe.fdiv 100)
  let mp := (5 * doy + 2).fdiv 153
  let d := doy - (153 * mp + 2).fdiv 5 + 1
  let m := if mp < 10 then mp + 3 else mp - 9
  (if m ≤ 2 then y + 1 else y, m, d)

/-- `datetime.fromtimestamp` followed by `strftime` with the year-month-day hour:minute:second format.
`fromtimestamp` converts epoch seconds to *local* civil time, so the local
UTC offset of the local timezone (in seconds) is an explicit parameter. -/
def format_timestamp (tzOffset : Int) (ts : Int) : String :=
  let t := ts + tzOffset
  let days := t.fdiv 86400
  let sod := t - days * 86400
  let c := civil_from_days days
  let hh := sod.fdiv 3600
  let mm := (sod - hh * 3600).fdiv 60
  let ss := sod - hh * 3600 - mm * 60
  toString c.1 ++ "-" ++ pad2 c.2.1 ++ "-" ++ pad2 c.2.2 ++ " "
    ++ pad2 hh ++ ":" ++ pad2 mm ++ ":" ++ pad2 ss

/-- The lookup of the current_date key with default `int(time.time())`, done in `send_status_message`.
The non-dict branch never fires on the path where it is evaluated, because
`check_response` has already established that `response` is a dict. -/
def get_current_date (response : JVal) (now : Int) : JVal :=
  match response with
  | .dict fields => (fields.lookup "current_date").getD (.int now)
  | _ => .int now

/-- `datetime.fromtimestamp` applied to the value fetched from the response:
it requires a number, and raises `TypeError` otherwise. -/
def as_timestamp : JVal → Except BotError Int
  | .int n => .ok n
  | _ => .error (.typeError "an integer is required")

/-- The external effects one loop iteration can observe: the HTTP outcome, the
local clock (`int(time.time())`), the local timezone offset, and the Telegram
outcome for each message text (`send_message` returns `True` exactly when
`bot.send_message` did not raise `TelegramError`). -/
structure IterInput where
  http : HttpResult
  now : Int
  tzOffset : Int
  tg : String → Bool

/-- `send_message(bot, message)`: returns `True` on success, `False` when the
transport raised `TelegramError` (which it catches). -/
def send_message (tg : String → Bool) (message : String) : Bool :=
  tg message

/-- `send_status_message(bot, current_timestamp)`.  Returns the Python
`(verdict, flag)` pair on normal return, the raised exception otherwise, and
— alongside — the list of message texts handed to `send_message` (the
delivery attempts made during the call). -/
def send_status_message (inp : IterInput) (current_timestamp : Int) :
    Except BotError (String × Bool) × List String :=
  match get_api_answer inp.http current_timestamp with
  | .error e => (.error e, [])
  | .ok response =>
      match check_response response with
      | .error e => (.error e, [])
      | .ok homeworks =>
          let current_timestamp := get_current_date response inp.now
          match homeworks with
          | [] => (.ok ("", false), [])
          | homework :: _ =>
              match as_timestamp current_timestamp with
              | .error e => (.error e, [])
              | .ok ts =>
                  let timestamp := format_timestamp inp.tzOffset ts
                  match parse_status homework with
                  | .error e => (.error e, [])
                  | .ok verdict =>
                      let message := "[" ++ timestamp ++ "] " ++ verdict
                      if send_message inp.tg message then
                        (.ok (verdict, true), [message])
                      else
                        (.ok ("", false), [message])

/-- The fixed waiting text of `send_waiting_message`. -/
def WAITING_TEXT : String := "Ожидаем проверки новой работы."

/-- `send_waiting_message(bot, prev_verdict, prev_verdict_sent)`: attempts the
fixed waiting text only when `prev_verdict_sent` is false; records it in the
history only when `send_message` succeeds. -/
def send_waiting_message (tg : String → Bool)
    (prev_verdict : String) (prev_verdict_sent : Bool) :
    (String × Bool) × List String :=
  if !prev_verdict_sent then
    if send_message tg WAITING_TEXT then
      ((WAITING_TEXT, true), [WAITING_TEXT])
    else
      ((prev_verdict, prev_verdict_sent), [WAITING_TEXT])
  else
    ((prev_verdict, prev_verdict_sent), [])

/-- `send_error_message(bot, error_message, prev_verdict, prev_verdict_sent)`:
attempts the error text when it differs from `prev_verdict` and the sent flag
is clear; NOTE (faithful to the source) the return value of `send_message` is
ignored, so the history is updated to `(error_message, True)` even when the
delivery failed. -/
def send_error_message (tg : String → Bool) (error_message : String)
    (prev_verdict : String) (prev_verdict_sent : Bool) :
    (String × Bool) × List String :=
  if error_message ≠ prev_verdict && !prev_verdict_sent then
    let _ := send_message tg error_message
    ((error_message, true), [error_message])
  else
    ((prev_verdict, prev_verdict_sent), [])

/-- The mutable state of the loop in `main`: the poll cursor `current_timestamp`
and the notification history `(prev_verdict, prev_verdict_sent)`. -/
structure BotState where
  current_timestamp : Int
  prev_verdict : String
  prev_verdict_sent : Bool
deriving DecidableEq, Repr

/-- What one iteration of the `while True` body produces: the new state, the
delivery attempts made, and the seconds slept in the `finally` block. -/
structure IterOutput where
  state : BotState
  attempts : List String
  slept : Nat

/-- One iteration of the `while True` body of `main`: try
`send_status_message`; on `(verdict, True)` record it, on `(_, False)` fall
through to `send_waiting_message`, on any exception render the error text and call `send_error_message`; finally sleep
`RETRY_PERIOD`.  The cursor `current_timestamp` is read but never assigned by
the loop body. -/
def mainStep (inp : IterInput) (s : BotState) : IterOutput :=
  match send_status_message inp s.current_timestamp with
  | (.ok (verdict, true), att) =>
      ⟨⟨s.current_timestamp, verdict, true⟩, att, RETRY_PERIOD⟩
  | (.ok (_, false), att) =>
      let r := send_waiting_message inp.tg s.prev_verdict s.prev_verdict_sent
      ⟨⟨s.current_timestamp, r.1.1, r.1.2⟩, att ++ r.2, RETRY_PERIOD⟩
  | (.error e, att) =>
      let error_message := "Сбой в работе бота: " ++ e.render
      let r := send_error_message inp.tg error_message s.prev_verdict s.prev_verdict_sent
      ⟨⟨s.current_timestamp, r.1.1, r.1.2⟩, att ++ r.2, RETRY_PERIOD⟩

/-- Run the loop for a finite prefix of iterations, one `IterInput` per wake;
yields the output of every iteration, in order. -/
def mainRun (s : BotState) : List IterInput → List IterOutput
  | [] => []
  | inp :: rest =>
      let o := mainStep inp s
      o :: mainRun o.state rest

/-- The state `main` enters the loop with: cursor at process start time,
empty history. -/
def initState (startTime : Int) : BotState :=
  ⟨startTime, "", false⟩

/-! ## Concrete fixtures used by the claim theorems and witnesses -/

/-- A homework entry with status `approved`. -/
def hwApproved : JVal :=
  .dict [("homework_name", .str "hw1"), ("status", .str "approved")]

/-- The verdict text `parse_status` renders for `hwApproved`. -/
def verdictApproved : String :=
  "Изменился статус проверки работы \"hw1\". Работа проверена: ревьюеру всё понравилось. Ура!"

/-- A successful non-empty response with server watermark `current_date = 200`. -/
def respOK : JVal :=
  .dict [("homeworks", .list [hwApproved]), ("current_date", .int 200)]

/-- A successful response with an empty homeworks list. -/
def respEmpty : JVal :=
  .dict [("homeworks", .list []), ("current_date", .int 200)]

/-- Iteration input: HTTP 200 with `respOK`, Telegram delivery succeeding. -/
def inpOK : IterInput := ⟨.response 200 (some respOK), 999, 0, fun _ => true⟩

/-- Iteration input: HTTP 200 with `respEmpty`, Telegram delivery succeeding. -/
def inpEmpty : IterInput := ⟨.response 200 (some respEmpty), 999, 0, fun _ => true⟩

/-- Iteration input: the fetch raises a transport error, first kind. -/
def inpErrA : IterInput := ⟨.requestException "errA", 999, 0, fun _ => true⟩

/-- Iteration input: the fetch raises a transport error, second (distinct) kind. -/
def inpErrB : IterInput := ⟨.requestException "errB", 999, 0, fun _ => true⟩

/-- Iteration input: the fetch raises a transport error and the Telegram
delivery fails. -/
def inpErrFail : IterInput := ⟨.requestException "boom", 999, 0, fun _ => false⟩

/-! ## Helper lemmas shared by several claims -/

/-- Unfolding lemma: when the fetch succeeds with a dict whose validation
yields a non-empty list, whose watermark is the integer `cd`, and whose first
entry parses to `verdict`, `send_status_message` attempts exactly the
timestamp-prefixed verdict and reports success exactly when the transport
does. -/
theorem send_status_message_nonempty (inp : IterInput) (t : Int)
    (fields : List (String × JVal)) (hw : JVal) (rest : List JVal)
    (cd : Int) (verdict : String)
    (hhttp : inp.http = .response 200 (some (.dict fields)))
    (hcheck : check_response (.dict fields) = .ok (hw :: rest))
    (hcd : fields.lookup "current_date" = some (.int cd))
    (hparse : parse_status hw = .ok verdict) :
    send_status_message inp t =
      (if inp.tg ("[" ++ format_timestamp inp.tzOffset cd ++ "] " ++ verdict)
        then (.ok (verdict, true), ["[" ++ format_timestamp inp.tzOffset cd ++ "] " ++ verdict])
        else (.ok ("", false), ["[" ++ format_timestamp inp.tzOffset cd ++ "] " ++ verdict])) := by
  simp only [send_status_message, hhttp, get_api_answer]
  norm_num [hcheck, get_current_date, hcd, as_timestamp, hparse, send_message]

/-- Unfolding lemma: when the fetch succeeds with a dict whose validation
yields the empty list, `send_status_message` makes no attempt and returns the
empty verdict with a cleared flag. -/
theorem send_status_message_empty (inp : IterInput) (t : Int)
    (fields : List (String × JVal))
    (hhttp : inp.http = .response 200 (some (.dict fields)))
    (hcheck : check_response (.dict fields) = .ok []) :
    send_status_message inp t = (.ok ("", false), []) := by
  simp only [send_status_message, hhttp, get_api_answer]
  norm_num [hcheck]

/-- Unfolding lemma: when `send_status_message` raises, it has made no
delivery attempt. -/
theorem send_status_message_error_no_attempt (inp : IterInput) (t : Int)
    (e : BotError) (att : List String)
    (h : send_status_message inp t = (.error e, att)) : att = [] := by
  simp only [send_status_message] at h
  repeat' split at h
  all_goals simp_all

/-- The cursor is read but never written by the loop body. -/
theorem mainStep_cursor (inp : IterInput) (s : BotState) :
    (mainStep inp s).state.current_timestamp = s.current_timestamp := by
  unfold mainStep
  rcases h : send_status_message inp s.current_timestamp with ⟨e | ⟨v, b⟩, att⟩
  · rfl
  · cases b <;> rfl

/-- Every iteration of the loop body sleeps for the fixed retry period. -/
theorem mainStep_slept (inp : IterInput) (s : BotState) :
    (mainStep inp s).slept = RETRY_PERIOD := by
  unfold mainStep
  rcases h : send_status_message inp s.current_timestamp with ⟨e | ⟨v, b⟩, att⟩
  · rfl
  · cases b <;> rfl

/-- Every iteration produces an output: the loop body never terminates on a
failure, so a run over any input list yields one output per input. -/
theorem mainRun_length (s : BotState) (inputs : List IterInput) :
    (mainRun s inputs).length = inputs.length := by
  induction inputs generalizing s with
  | nil => rfl
  | cons i rest ih => simp [mainRun, ih]

/-- Once the sent flag is set, one loop iteration keeps it set. -/
theorem mainStep_preserves_sent (inp : IterInput) (s : BotState)
    (h : s.prev_verdict_sent = true) :
    (mainStep inp s).state.prev_verdict_sent = true := by
  unfold mainStep
  rcases hr : send_status_message inp s.current_timestamp with ⟨e | ⟨v, b⟩, att⟩
  · simp [send_error_message, h]
  · cases b
    · simp [send_waiting_message, h]
    · rfl

/-- Once the sent flag is set, every state reached in any further run keeps
it set. -/
theorem mainRun_sent (s : BotState) (h : s.prev_verdict_sent = true)
    (inputs : List IterInput) :
    ∀ o ∈ mainRun s inputs, o.state.prev_verdict_sent = true := by
  induction inputs generalizing s with
  | nil => intro o ho; cases ho
  | cons i rest ih =>
      intro o ho
      simp only [mainRun, List.mem_cons] at ho
      rcases ho with rfl | ho
      · exact mainStep_preserves_sent i s h
      · exact ih (mainStep i s).state (mainStep_preserves_sent i s h) o ho

/-! ## Claim theorems -/

/-- C1: the claim says the cursor (the from_date passed to the fetch) is
advanced to the server-provided current_date watermark when fetch+validate
succeed.  In the code the loop of `main` never assigns `current_timestamp`
(the assignment inside `send_status_message` is to a local), so the cursor is
constant across every iteration — here a fully successful iteration (flag set,
one delivery) whose server watermark is 200 leaves the cursor at 100. -/
theorem C1_cursor_never_advances :
    (∀ (inp : IterInput) (s : BotState),
        (mainStep inp s).state.current_timestamp = s.current_timestamp) ∧
    (mainStep inpOK (initState 100)).state.prev_verdict_sent = true ∧
    get_current_date respOK 999 = .int 200 ∧
    (mainStep inpOK (initState 100)).state.current_timestamp = 100 ∧
    (100 : Int) ≠ 200 :=
  ⟨mainStep_cursor, by rfl, by rfl, by rfl, by decide⟩

/-- C4: the claim says the notification history is updated if and only if the
Notifier reports success.  On the error path the code ignores the result of
`send_message`: with a transport that reports failure for every message, one
failing iteration still updates the history from `("", false)` to the error
text with the sent flag set. -/
theorem C4_error_history_updated_despite_failed_send :
    inpErrFail.tg ("Сбой в работе бота: " ++ "Ошибка при запросе к API: boom") = false ∧
    mainStep inpErrFail (initState 100) =
      ⟨⟨100, "Сбой в работе бота: " ++ "Ошибка при запросе к API: boom", true⟩,
        ["Сбой в работе бота: " ++ "Ошибка при запросе к API: boom"], 600⟩ ∧
    ((initState 100).prev_verdict, (initState 100).prev_verdict_sent) = ("", false) :=
  ⟨rfl, rfl, rfl⟩

/-- C6: the claim says a fetch whose body is not parseable JSON fails with a
MalformedPayload-class error.  The code catches `json.JSONDecodeError`, only
logs it, and returns the unparsed response object; the failure surfaces only
downstream, when `check_response` rejects the non-dict value with a
`TypeError`. -/
theorem C6_malformed_body_not_rejected_by_fetch :
    (∀ t : Int, get_api_answer (.response 200 none) t = .ok (.pyObject "requests.Response")) ∧
    check_response (.pyObject "requests.Response") =
      .error (.typeError "Ошибка в типе ответа API") :=
  ⟨fun _ => rfl, rfl⟩

/-- C7 counterexample: the claimed recognized set is

pending, approved, rejected

but the code rejects `pending` with `UnknownHomeworkStatus` and recognizes
`reviewing`. -/
theorem C7_pending_not_recognized :
    parse_status (.dict [("homework_name", .str "hw1"), ("status", .str "pending")]) =
      .error (.unknownHomeworkStatus "Неизвестный статус домашней работы в ответе API") ∧
    parse_status (.dict [("homework_name", .str "hw1"), ("status", .str "reviewing")]) =
      .ok ("Изменился статус проверки работы \"hw1\". " ++ "Работа взята на проверку ревьюером.") :=
  ⟨rfl, rfl⟩

/-- Auxiliary: an unrecognized status code string makes `parse_status` fail. -/
theorem e7aux (nm code : String) (h1 : ¬code = "approved")
    (h2 : ¬code = "reviewing") (h3 : ¬code = "rejected") :
    parse_status (.dict [("homework_name", .str nm), ("status", .str code)]) =
      .error (.unknownHomeworkStatus "Неизвестный статус домашней работы в ответе API") := by
  have e1 : (code == "approved") = false := beq_eq_false_iff_ne.mpr h1
  have e2 : (code == "reviewing") = false := beq_eq_false_iff_ne.mpr h2
  have e3 : (code == "rejected") = false := beq_eq_false_iff_ne.mpr h3
  simp [parse_status, HOMEWORK_VERDICTS, List.lookup, e1, e2, e3]

/-- C7 (amended): the interpreter recognizes exactly the closed set
approved, reviewing, rejected: each such code yields the message embedding the
fixed verdict text of that code, and every other status-code string fails with
`UnknownHomeworkStatus`. -/
theorem C7_recognized_verdict_set (nm code : String) :
    parse_status (.dict [("homework_name", .str nm), ("status", .str code)]) =
      (if code = "approved" then
        .ok ("Изменился статус проверки работы \"" ++ nm ++ "\". "
              ++ "Работа проверена: ревьюеру всё понравилось. Ура!")
      else if code = "reviewing" then
        .ok ("Изменился статус проверки работы \"" ++ nm ++ "\". "
              ++ "Работа взята на проверку ревьюером.")
      else if code = "rejected" then
        .ok ("Изменился статус проверки работы \"" ++ nm ++ "\". "
              ++ "Работа проверена: у ревьюера есть замечания.")
      else
        .error (.unknownHomeworkStatus "Неизвестный статус домашней работы в ответе API")) := by
  by_cases h1 : code = "approved"
  · subst h1
    simp [parse_status, HOMEWORK_VERDICTS, List.lookup, pyStr]
  · by_cases h2 : code = "reviewing"
    · subst h2
      simp [parse_status, HOMEWORK_VERDICTS, List.lookup, pyStr, h1]
    · by_cases h3 : code = "rejected"
      · subst h3
        simp [parse_status, HOMEWORK_VERDICTS, List.lookup, pyStr, h1, h2]
      · rw [if_neg h1, if_neg h2, if_neg h3]
        exact e7aux nm code h1 h2 h3

/-- C2 counterexample: the claim says feeding the same successful non-empty
response in two consecutive iterations results in exactly one delivery
attempt.  In the code both iterations attempt delivery (one attempt each, two
in total): the status path consults no history. -/
theorem C2_second_attempt_not_suppressed :
    ((mainRun (initState 100) [inpOK, inpOK]).map fun o => o.attempts.length) = [1, 1] ∧
    (mainRun (initState 100) [inpOK, inpOK]).foldl (fun n o => n + o.attempts.length) 0 = 2 :=
  ⟨rfl, rfl⟩

/-- C2 (amended): the status path applies no dedup gate: for a successful
non-empty response whose delivery succeeds, processing the same response in
two consecutive iterations produces one delivery attempt in each iteration —
two attempts in total, both carrying the same timestamped verdict text. -/
theorem C2_status_path_attempts_every_iteration
    (inp : IterInput) (s : BotState)
    (fields : List (String × JVal)) (hw : JVal) (rest : List JVal)
    (cd : Int) (verdict : String)
    (hhttp : inp.http = .response 200 (some (.dict fields)))
    (hcheck : check_response (.dict fields) = .ok (hw :: rest))
    (hcd : fields.lookup "current_date" = some (.int cd))
    (hparse : parse_status hw = .ok verdict)
    (htg : inp.tg ("[" ++ format_timestamp inp.tzOffset cd ++ "] " ++ verdict) = true) :
    ((mainRun s [inp, inp]).map fun o => o.attempts) =
      [["[" ++ format_timestamp inp.tzOffset cd ++ "] " ++ verdict],
       ["[" ++ format_timestamp inp.tzOffset cd ++ "] " ++ verdict]] := by
  have h1 := send_status_message_nonempty inp s.current_timestamp fields hw rest cd verdict
    hhttp hcheck hcd hparse
  rw [htg, if_pos rfl] at h1
  simp [mainRun, mainStep, h1]

/-- C2 witness: the amended property at a concrete successful response. -/
theorem C2_status_path_attempts_every_iteration_witness :
    ((mainRun (initState 100) [inpOK, inpOK]).map fun o => o.attempts) =
      [["[" ++ format_timestamp 0 200 ++ "] " ++ verdictApproved],
       ["[" ++ format_timestamp 0 200 ++ "] " ++ verdictApproved]] :=
  C2_status_path_attempts_every_iteration inpOK (initState 100)
    [("homeworks", .list [hwApproved]), ("current_date", .int 200)]
    hwApproved [] 200 verdictApproved rfl rfl rfl rfl rfl

/-- C3 counterexample: the claim says two consecutive recoverable failures
with different rendered error texts both trigger a delivery attempt.  In the
code the first error attempt sets the sent flag, and the flag suppresses the
second error message even though its text differs from the first. -/
theorem C3_distinct_failures_second_suppressed :
    ((mainRun (initState 100) [inpErrA, inpErrB]).map fun o => o.attempts) =
      [["Сбой в работе бота: " ++ "Ошибка при запросе к API: errA"], []] ∧
    ("Сбой в работе бота: " ++ "Ошибка при запросе к API: errA") ≠
      ("Сбой в работе бота: " ++ "Ошибка при запросе к API: errB") :=
  ⟨rfl, by decide⟩

/-- C3 (amended): across two consecutive failing iterations, at most the
first triggers a delivery attempt: when the first error text differs from the
stored text and the sent flag is clear, the first iteration attempts its
rendered text and records it with the flag set, and then the second failing
iteration attempts nothing — whether or not the two error texts differ. -/
theorem C3_error_dedup_by_flag
    (inpA inpB : IterInput) (s : BotState) (eA eB : BotError)
    (attA attB : List String)
    (hA : send_status_message inpA s.current_timestamp = (.error eA, attA))
    (hB : send_status_message inpB s.current_timestamp = (.error eB, attB))
    (hdiff : ("Сбой в работе бота: " ++ eA.render) ≠ s.prev_verdict)
    (hsent : s.prev_verdict_sent = false) :
    (mainStep inpA s).attempts = ["Сбой в работе бота: " ++ eA.render] ∧
    (mainStep inpA s).state.prev_verdict = "Сбой в работе бота: " ++ eA.render ∧
    (mainStep inpA s).state.prev_verdict_sent = true ∧
    (mainStep inpB (mainStep inpA s).state).attempts = [] := by
  have hattA : attA = [] := send_status_message_error_no_attempt inpA s.current_timestamp eA attA hA
  subst hattA
  have hstep : mainStep inpA s =
      ⟨⟨s.current_timestamp, "Сбой в работе бота: " ++ eA.render, true⟩,
        ["Сбой в работе бота: " ++ eA.render], RETRY_PERIOD⟩ := by
    simp [mainStep, hA, send_error_message, hdiff, hsent]
  have hattB : attB = [] := send_status_message_error_no_attempt inpB s.current_timestamp eB attB hB
  subst hattB
  rw [hstep]
  refine ⟨rfl, rfl, rfl, ?_⟩
  simp [mainStep, hB, send_error_message]

/-- C3 witness: the amended property at two concrete distinct transport
failures from the initial state. -/
theorem C3_error_dedup_by_flag_witness :
    (mainStep inpErrA (initState 100)).attempts =
      ["Сбой в работе бота: " ++ ("Ошибка при запросе к API: " ++ "errA")] ∧
    (mainStep inpErrA (initState 100)).state.prev_verdict =
      "Сбой в работе бота: " ++ ("Ошибка при запросе к API: " ++ "errA") ∧
    (mainStep inpErrA (initState 100)).state.prev_verdict_sent = true ∧
    (mainStep inpErrB (mainStep inpErrA (initState 100)).state).attempts = [] :=
  C3_error_dedup_by_flag inpErrA inpErrB (initState 100)
    (.wrongHttpStatus ("Ошибка при запросе к API: " ++ "errA"))
    (.wrongHttpStatus ("Ошибка при запросе к API: " ++ "errB"))
    [] [] rfl rfl (by decide) rfl

/-- C5 counterexample: the claim says the waiting text is sent whenever it
differs from the last successfully sent text.  In the code the gate tests only
the sent flag: from a state whose flag is set, an empty-list iteration makes
no attempt although the waiting text differs from the stored text, and the
state is unchanged. -/
theorem C5_waiting_text_suppressed_though_different :
    check_response respEmpty = .ok [] ∧
    (mainStep inpEmpty ⟨100, verdictApproved, true⟩).attempts = [] ∧
    verdictApproved ≠ WAITING_TEXT ∧
    (mainStep inpEmpty ⟨100, verdictApproved, true⟩).state = ⟨100, verdictApproved, true⟩ :=
  ⟨rfl, rfl, by decide, rfl⟩

/-- C5 (amended): an empty homeworks list passes validation, and on an
empty-list iteration the fixed waiting text is attempted exactly when the sent
flag is clear (no comparison with the stored text), the history being updated
only when that delivery succeeds. -/
theorem C5_empty_valid_waiting_gated_by_flag
    (inp : IterInput) (s : BotState)
    (fields : List (String × JVal)) (cdv : JVal)
    (hhttp : inp.http = .response 200 (some (.dict fields)))
    (hhw : fields.lookup "homeworks" = some (.list []))
    (hcdv : fields.lookup "current_date" = some cdv) :
    check_response (.dict fields) = .ok [] ∧
    (mainStep inp s).attempts = (if s.prev_verdict_sent then [] else [WAITING_TEXT]) ∧
    (mainStep inp s).state =
      ⟨s.current_timestamp,
        if s.prev_verdict_sent = false ∧ inp.tg WAITING_TEXT = true
          then WAITING_TEXT else s.prev_verdict,
        if s.prev_verdict_sent = false ∧ inp.tg WAITING_TEXT = true
          then true else s.prev_verdict_sent⟩ := by
  have hcheck : check_response (.dict fields) = .ok [] := by
    simp [check_response, hhw, hcdv]
  have hsss := send_status_message_empty inp s.current_timestamp fields hhttp hcheck
  refine ⟨hcheck, ?_, ?_⟩ <;>
    rcases hps : s.prev_verdict_sent with _ | _ <;>
      rcases htg : inp.tg WAITING_TEXT with _ | _ <;>
        simp [mainStep, hsss, send_waiting_message, send_message, hps, htg]

/-- C5 witness: the amended property at a concrete empty response from the
initial state, where the waiting text is attempted and recorded. -/
theorem C5_empty_valid_waiting_gated_by_flag_witness :
    check_response (.dict [("homeworks", .list []), ("current_date", .int 200)]) = .ok [] ∧
    (mainStep inpEmpty (initState 100)).attempts =
      (if (initState 100).prev_verdict_sent then [] else [WAITING_TEXT]) ∧
    (mainStep inpEmpty (initState 100)).state =
      ⟨(initState 100).current_timestamp,
        if (initState 100).prev_verdict_sent = false ∧ inpEmpty.tg WAITING_TEXT = true
          then WAITING_TEXT else (initState 100).prev_verdict,
        if (initState 100).prev_verdict_sent = false ∧ inpEmpty.tg WAITING_TEXT = true
          then true else (initState 100).prev_verdict_sent⟩ :=
  C5_empty_valid_waiting_gated_by_flag inpEmpty (initState 100)
    [("homeworks", .list []), ("current_date", .int 200)] (.int 200) rfl rfl rfl

/-- C8: any failure raised by the fetch, validate, or interpret steps is
caught at the loop boundary, rendered as the single error text with the cause
appended, and routed through the error dedup gate; no failure terminates the
loop (every input list yields one output per input), and every iteration —
success or failure — sleeps the fixed retry period. -/
theorem C8_failure_contained (inp : IterInput) (s : BotState) (e : BotError)
    (att : List String)
    (h : send_status_message inp s.current_timestamp = (.error e, att)) :
    (mainStep inp s).attempts =
      (send_error_message inp.tg ("Сбой в работе бота: " ++ e.render)
        s.prev_verdict s.prev_verdict_sent).2 ∧
    ((mainStep inp s).state.prev_verdict, (mainStep inp s).state.prev_verdict_sent) =
      (send_error_message inp.tg ("Сбой в работе бота: " ++ e.render)
        s.prev_verdict s.prev_verdict_sent).1 ∧
    (mainStep inp s).slept = RETRY_PERIOD ∧
    (∀ (inp2 : IterInput) (s2 : BotState), (mainStep inp2 s2).slept = RETRY_PERIOD) ∧
    (∀ (s2 : BotState) (inputs : List IterInput),
        (mainRun s2 inputs).length = inputs.length) := by
  have hatt : att = [] :=
    send_status_message_error_no_attempt inp s.current_timestamp e att h
  subst hatt
  refine ⟨?_, ?_, mainStep_slept inp s, mainStep_slept, mainRun_length⟩ <;>
    simp [mainStep, h]

/-- C8 witness: the containment property at a concrete transport failure. -/
theorem C8_failure_contained_witness :
    (mainStep inpErrA (initState 100)).slept = RETRY_PERIOD ∧
    (mainStep inpErrA (initState 100)).attempts =
      (send_error_message inpErrA.tg
        ("Сбой в работе бота: " ++ ("Ошибка при запросе к API: " ++ "errA"))
        "" false).2 :=
  ⟨(C8_failure_contained inpErrA (initState 100)
      (.wrongHttpStatus ("Ошибка при запросе к API: " ++ "errA")) [] rfl).2.2.1,
   (C8_failure_contained inpErrA (initState 100)
      (.wrongHttpStatus ("Ошибка при запросе к API: " ++ "errA")) [] rfl).1⟩

/-- C9: the sent flag is monotone — once set, one step keeps it set and every
state reached by any further run keeps it set — and with the flag set the only
delivery attempts an iteration can make are those of the status path (the
waiting and error gates are permanently suppressed). -/
theorem C9_sent_flag_monotone (inp : IterInput) (s : BotState)
    (h : s.prev_verdict_sent = true) :
    (mainStep inp s).state.prev_verdict_sent = true ∧
    (mainStep inp s).attempts = (send_status_message inp s.current_timestamp).2 ∧
    (∀ inputs : List IterInput, ∀ o ∈ mainRun s inputs,
        o.state.prev_verdict_sent = true) := by
  refine ⟨mainStep_preserves_sent inp s h, ?_, fun inputs => mainRun_sent s h inputs⟩
  unfold mainStep
  rcases hr : send_status_message inp s.current_timestamp with ⟨e | ⟨v, b⟩, att⟩
  · simp [send_error_message, h]
  · cases b
    · simp [send_waiting_message, h]
    · rfl

/-- C9 witness: the monotonicity property at a concrete state whose flag is
set, under an empty-list response. -/
theorem C9_sent_flag_monotone_witness :
    (mainStep inpEmpty ⟨100, "x", true⟩).state.prev_verdict_sent = true ∧
    (mainStep inpEmpty ⟨100, "x", true⟩).attempts =
      (send_status_message inpEmpty (100 : Int)).2 :=
  ⟨(C9_sent_flag_monotone inpEmpty ⟨100, "x", true⟩ rfl).1,
   (C9_sent_flag_monotone inpEmpty ⟨100, "x", true⟩ rfl).2.1⟩

/-- C10: on a successful non-empty response, the text handed to the Notifier
is not the verdict alone but the verdict prefixed with the formatted
wall-clock timestamp derived from the current_date of the response (the local
clock being the fallback when the key is absent). -/
theorem C10_notifier_text_is_timestamped (inp : IterInput) (t : Int)
    (fields : List (String × JVal)) (hw : JVal) (rest : List JVal)
    (cd : Int) (verdict : String)
    (hhttp : inp.http = .response 200 (some (.dict fields)))
    (hcheck : check_response (.dict fields) = .ok (hw :: rest))
    (hcd : fields.lookup "current_date" = some (.int cd))
    (hparse : parse_status hw = .ok verdict) :
    (send_status_message inp t).2 =
      ["[" ++ format_timestamp inp.tzOffset cd ++ "] " ++ verdict] ∧
    ("[" ++ format_timestamp inp.tzOffset cd ++ "] " ++ verdict) ≠ verdict ∧
    (∀ now : Int, get_current_date (.dict []) now = .int now) := by
  have h := send_status_message_nonempty inp t fields hw rest cd verdict
    hhttp hcheck hcd hparse
  refine ⟨?_, ?_, fun now => rfl⟩
  · rw [h]
    split <;> rfl
  · intro heq
    have hlen := congrArg String.length heq
    simp only [String.length_append] at hlen
    rw [show ("[" : String).length = 1 from rfl,
      show ("] " : String).length = 2 from rfl] at hlen
    omega

/-- C10 witness: the timestamped-text property at a concrete successful
response. -/
theorem C10_notifier_text_is_timestamped_witness :
    (send_status_message inpOK (100 : Int)).2 =
      ["[" ++ format_timestamp 0 200 ++ "] " ++ verdictApproved] ∧
    ("[" ++ format_timestamp 0 200 ++ "] " ++ verdictApproved) ≠ verdictApproved :=
  ⟨(C10_notifier_text_is_timestamped inpOK 100
      [("homeworks", .list [hwApproved]), ("current_date", .int 200)]
      hwApproved [] 200 verdictApproved rfl rfl rfl rfl).1,
   (C10_notifier_text_is_timestamped inpOK 100
      [("homeworks", .list [hwApproved]), ("current_date", .int 200)]
      hwApproved [] 200 verdictApproved rfl rfl rfl rfl).2.1⟩

end HomeworkBot
